import Mathlib

/-!
Verification of the profile inference, fusion, similarity and prompt
transformation engine of the NLP-generative-UI pipeline.

The Python source (`src/models/profile_generator.py` and
`src/models/prompt_transformer.py`) is shallowly embedded below.
Machine floats are modelled as exact rationals (`ℚ`); the similarity
computation, which takes Euclidean norms, is modelled over `ℝ` with
`Real.sqrt`.  The in-memory profile cache (a Python dict) is modelled as
an association list in insertion order, matching dict iteration order.
`datetime.utcnow()` is modelled by passing the current timestamp as an
explicit argument.
-/

set_option maxRecDepth 10000

/-- Embeds `datetime` values: the components that `isoformat` renders. -/
structure Datetime where
  year : Nat
  month : Nat
  day : Nat
  hour : Nat
  minute : Nat
  second : Nat
  microsecond : Nat
deriving DecidableEq, Repr

/-- Left-pads the decimal rendering of `n` with zeros to width `w`,
as Python's `%0Nd` formatting used by `datetime.isoformat`. -/
def padNum (w : Nat) (n : Nat) : String :=
  let s := toString n
  String.mk (List.replicate (w - s.length) '0') ++ s

/-- Embeds `datetime.isoformat()`: `YYYY-MM-DDTHH:MM:SS[.ffffff]`,
with the fractional part omitted when `microsecond = 0`. -/
def isoformat (d : Datetime) : String :=
  padNum 4 d.year ++ "-" ++ padNum 2 d.month ++ "-" ++ padNum 2 d.day ++ "T" ++
    padNum 2 d.hour ++ ":" ++ padNum 2 d.minute ++ ":" ++ padNum 2 d.second ++
    (if d.microsecond = 0 then "" else "." ++ padNum 6 d.microsecond)

/-- Embeds dataclass `LearningStyle` (defaults 0.25 each). -/
structure LearningStyle where
  visual : ℚ := 1/4
  auditory : ℚ := 1/4
  reading : ℚ := 1/4
  kinesthetic : ℚ := 1/4
deriving DecidableEq, Repr

/-- Embeds dataclass `PersonalityProfile` (defaults 0.5 each). -/
structure PersonalityProfile where
  extraversion : ℚ := 1/2
  intuition : ℚ := 1/2
  thinking : ℚ := 1/2
  judging : ℚ := 1/2
deriving DecidableEq, Repr

/-- Embeds dataclass `CognitiveProfile` (defaults 0.5 each). -/
structure CognitiveProfile where
  processing_speed : ℚ := 1/2
  working_memory : ℚ := 1/2
  analytical_thinking : ℚ := 1/2
  creative_thinking : ℚ := 1/2
  attention_span : ℚ := 1/2
deriving DecidableEq, Repr

/-- Embeds dataclass `BehavioralProfile` (defaults 0.5 each). -/
structure BehavioralProfile where
  engagement_level : ℚ := 1/2
  persistence : ℚ := 1/2
  help_seeking : ℚ := 1/2
  collaboration_preference : ℚ := 1/2
  self_regulation : ℚ := 1/2
deriving DecidableEq, Repr

/-- Embeds dataclass `LearnerProfile`. -/
structure LearnerProfile where
  learner_id : String
  learning_style : LearningStyle := {}
  personality : PersonalityProfile := {}
  cognitive : CognitiveProfile := {}
  behavioral : BehavioralProfile := {}
  difficulty_areas : List String := []
  strengths : List String := []
  recommended_strategies : List String := []
  confidence_level : ℚ := 3/5
  last_updated : Datetime
deriving DecidableEq, Repr

/-- Embeds `_clip01(x) = float(max(0.0, min(1.0, x)))`. -/
def _clip01 (x : ℚ) : ℚ := max 0 (min 1 x)

/-- The 19 scalar trait fields of a `LearnerProfile`, in dataclass order:
4 learning-style, 4 personality, 5 cognitive, 5 behavioral scores and the
confidence level. -/
def scalarFields (p : LearnerProfile) : List ℚ :=
  [p.learning_style.visual, p.learning_style.auditory,
   p.learning_style.reading, p.learning_style.kinesthetic,
   p.personality.extraversion, p.personality.intuition,
   p.personality.thinking, p.personality.judging,
   p.cognitive.processing_speed, p.cognitive.working_memory,
   p.cognitive.analytical_thinking, p.cognitive.creative_thinking,
   p.cognitive.attention_span,
   p.behavioral.engagement_level, p.behavioral.persistence,
   p.behavioral.help_seeking, p.behavioral.collaboration_preference,
   p.behavioral.self_regulation,
   p.confidence_level]

/-- A profile is valid when all of its scalar fields lie in `[0,1]`
(the data-model invariant of the spec). -/
def validProfile (p : LearnerProfile) : Prop :=
  ∀ x ∈ scalarFields p, 0 ≤ x ∧ x ≤ 1

instance (p : LearnerProfile) : Decidable (validProfile p) := by
  unfold validProfile; infer_instance

/-- Embeds `_merge_learning_style`. -/
def _merge_learning_style (existing new : LearningStyle) (weight : ℚ) : LearningStyle where
  visual := _clip01 (existing.visual * (1 - weight) + new.visual * weight)
  auditory := _clip01 (existing.auditory * (1 - weight) + new.auditory * weight)
  reading := _clip01 (existing.reading * (1 - weight) + new.reading * weight)
  kinesthetic := _clip01 (existing.kinesthetic * (1 - weight) + new.kinesthetic * weight)

/-- Embeds the inner helper `_dedup_keep_order` of `merge_profiles`:
`seen` accumulates the elements already emitted. -/
def dedupAux (seen : List String) : List String → List String
  | [] => []
  | x :: xs => if x ∈ seen then dedupAux seen xs else x :: dedupAux (x :: seen) xs

/-- Embeds `_dedup_keep_order`: keep first occurrences, preserve order. -/
def _dedup_keep_order (seq : List String) : List String := dedupAux [] seq

/-- Embeds `ProfileGenerator.merge_profiles`; `now` stands for the
`datetime.utcnow()` stamped at merge completion. -/
def merge_profiles (existing new : LearnerProfile) (weight : ℚ) (now : Datetime) :
    LearnerProfile :=
  let weight := _clip01 weight
  { learner_id := existing.learner_id
    learning_style := _merge_learning_style existing.learning_style new.learning_style weight
    personality :=
      { extraversion := _clip01 (existing.personality.extraversion * (1 - weight) +
          new.personality.extraversion * weight)
        intuition := _clip01 (existing.personality.intuition * (1 - weight) +
          new.personality.intuition * weight)
        thinking := _clip01 (existing.personality.thinking * (1 - weight) +
          new.personality.thinking * weight)
        judging := _clip01 (existing.personality.judging * (1 - weight) +
          new.personality.judging * weight) }
    cognitive :=
      { processing_speed := _clip01 (existing.cognitive.processing_speed * (1 - weight) +
          new.cognitive.processing_speed * weight)
        working_memory := _clip01 (existing.cognitive.working_memory * (1 - weight) +
          new.cognitive.working_memory * weight)
        analytical_thinking := _clip01 (existing.cognitive.analytical_thinking * (1 - weight) +
          new.cognitive.analytical_thinking * weight)
        creative_thinking := _clip01 (existing.cognitive.creative_thinking * (1 - weight) +
          new.cognitive.creative_thinking * weight)
        attention_span := _clip01 (existing.cognitive.attention_span * (1 - weight) +
          new.cognitive.attention_span * weight) }
    behavioral :=
      { engagement_level := _clip01 (existing.behavioral.engagement_level * (1 - weight) +
          new.behavioral.engagement_level * weight)
        persistence := _clip01 (existing.behavioral.persistence * (1 - weight) +
          new.behavioral.persistence * weight)
        help_seeking := _clip01 (existing.behavioral.help_seeking * (1 - weight) +
          new.behavioral.help_seeking * weight)
        collaboration_preference := _clip01 (existing.behavioral.collaboration_preference * (1 - weight) +
          new.behavioral.collaboration_preference * weight)
        self_regulation := _clip01 (existing.behavioral.self_regulation * (1 - weight) +
          new.behavioral.self_regulation * weight) }
    difficulty_areas := _dedup_keep_order (existing.difficulty_areas ++ new.difficulty_areas)
    strengths := _dedup_keep_order (existing.strengths ++ new.strengths)
    recommended_strategies :=
      _dedup_keep_order (existing.recommended_strategies ++ new.recommended_strategies)
    confidence_level := _clip01 (existing.confidence_level * (1 - weight) +
      new.confidence_level * weight)
    last_updated := now }

/-- Embeds Python `max(items, key=lambda kv: kv[1])` over an association
list: scans left to right keeping the current best, replacing it only on a
strictly greater value (so the first maximal entry wins). -/
def pyArgmax : (String × ℚ) → List (String × ℚ) → (String × ℚ)
  | best, [] => best
  | best, kv :: rest => pyArgmax (if best.2 < kv.2 then kv else best) rest

/-- Embeds Python `max(xs)` over a nonempty list of numbers (head plus
fold of binary max over the tail). -/
def pyMax (x : ℚ) (xs : List ℚ) : ℚ := xs.foldl max x

/-- Embeds `_infer_vark_from_learning_style`: returns the label and the
`scores` dict (association list in insertion order V, A, R, K). -/
def _infer_vark_from_learning_style (ls : LearningStyle) :
    String × List (String × ℚ) :=
  let scores := [("V", _clip01 ls.visual), ("A", _clip01 ls.auditory),
                 ("R", _clip01 ls.reading), ("K", _clip01 ls.kinesthetic)]
  let label := (pyArgmax ("V", _clip01 ls.visual)
                 [("A", _clip01 ls.auditory), ("R", _clip01 ls.reading),
                  ("K", _clip01 ls.kinesthetic)]).1
  (label, scores)

/-- Embeds `_infer_mbti_from_personality`: the 4-letter label built by
per-axis threshold tests on the clipped scores, and the `scores` dict
(association list in insertion order E, I, N, S, T, F, J, P). -/
def _infer_mbti_from_personality (pers : PersonalityProfile) :
    String × List (String × ℚ) :=
  let E := _clip01 pers.extraversion
  let N := _clip01 pers.intuition
  let T := _clip01 pers.thinking
  let J := _clip01 pers.judging
  let mbti := (if (1:ℚ)/2 ≤ E then "E" else "I") ++
              (if (1:ℚ)/2 ≤ N then "N" else "S") ++
              (if (1:ℚ)/2 ≤ T then "T" else "F") ++
              (if (1:ℚ)/2 ≤ J then "J" else "P")
  (mbti, [("E", E), ("I", 1 - E), ("N", N), ("S", 1 - N),
          ("T", T), ("F", 1 - T), ("J", J), ("P", 1 - J)])

/-- Feature mappings (`Dict[str, float]`) as association lists. -/
abbrev Features := List (String × ℚ)

/-- Embeds `features.get(key, default)`. -/
def fget (fs : Features) (key : String) (default : ℚ) : ℚ :=
  (fs.lookup key).getD default

/-- The `LearningStyle` built by `get_profiles_for_conversation` from the
feature mapping, with its alias fallbacks and defaults. -/
def featLearningStyle (features : Features) : LearningStyle where
  visual := fget features "ls_visual" (fget features "visual" (1/4))
  auditory := fget features "ls_auditory" (fget features "auditory" (1/4))
  reading := fget features "ls_reading" (fget features "reading" (1/4))
  kinesthetic := fget features "ls_kinesthetic" (fget features "kinesthetic" (1/4))

/-- The `PersonalityProfile` built by `get_profiles_for_conversation`
from the feature mapping, with its alias fallbacks and defaults. -/
def featPersonality (features : Features) : PersonalityProfile where
  extraversion := fget features "pers_extraversion" (fget features "extraversion" (1/2))
  intuition := fget features "pers_intuition" (fget features "intuition" (1/2))
  thinking := fget features "pers_thinking" (fget features "thinking" (1/2))
  judging := fget features "pers_judging" (fget features "judging" (1/2))

/-- The schema-compatible output of `get_profiles_for_conversation`. -/
structure ProfilesOut where
  varkLabel : String
  varkProba : List (String × ℚ)
  mbtiLabel : String
  mbtiConf : ℚ
  scores : List (String × ℚ)
deriving Repr

/-- Embeds `get_profiles_for_conversation(features)`. -/
def get_profiles_for_conversation (features : Features) : ProfilesOut :=
  let ls := featLearningStyle features
  let pers := featPersonality features
  let vark := _infer_vark_from_learning_style ls
  let mbti := _infer_mbti_from_personality pers
  let combined := vark.2.map (fun kv => ("VARK_" ++ kv.1, kv.2)) ++
                  mbti.2.map (fun kv => ("MBTI_" ++ kv.1, kv.2))
  { varkLabel := vark.1
    varkProba := vark.2
    mbtiLabel := mbti.1
    mbtiConf := pyMax ((mbti.2.map Prod.snd).headD 0 ) ((mbti.2.map Prod.snd).tail)
    scores := combined }

/-- All numeric values in the output of `get_profiles_for_conversation`:
the VARK probabilities, the combined scores and the MBTI confidence. -/
def numericOutputs (o : ProfilesOut) : List ℚ :=
  o.varkProba.map Prod.snd ++ o.scores.map Prod.snd ++ [o.mbtiConf]

/-- Embeds `ProfileGenerator._calculate_profile_similarity`: weighted sum
of per-group similarities `1 - ‖v1 - v2‖ / maxdist`, clamped to `[0,1]`
only at the end (weights 0.30 / 0.25 / 0.25 / 0.20). -/
noncomputable def _calculate_profile_similarity (p1 p2 : LearnerProfile) : ℝ :=
  let ls_sim : ℝ := 1 - Real.sqrt (
    ((p1.learning_style.visual : ℝ) - p2.learning_style.visual) ^ 2 +
    ((p1.learning_style.auditory : ℝ) - p2.learning_style.auditory) ^ 2 +
    ((p1.learning_style.reading : ℝ) - p2.learning_style.reading) ^ 2 +
    ((p1.learning_style.kinesthetic : ℝ) - p2.learning_style.kinesthetic) ^ 2) / 2
  let pr_sim : ℝ := 1 - Real.sqrt (
    ((p1.personality.extraversion : ℝ) - p2.personality.extraversion) ^ 2 +
    ((p1.personality.intuition : ℝ) - p2.personality.intuition) ^ 2 +
    ((p1.personality.thinking : ℝ) - p2.personality.thinking) ^ 2 +
    ((p1.personality.judging : ℝ) - p2.personality.judging) ^ 2) / 2
  let cg_sim : ℝ := 1 - Real.sqrt (
    ((p1.cognitive.processing_speed : ℝ) - p2.cognitive.processing_speed) ^ 2 +
    ((p1.cognitive.working_memory : ℝ) - p2.cognitive.working_memory) ^ 2 +
    ((p1.cognitive.analytical_thinking : ℝ) - p2.cognitive.analytical_thinking) ^ 2 +
    ((p1.cognitive.creative_thinking : ℝ) - p2.cognitive.creative_thinking) ^ 2 +
    ((p1.cognitive.attention_span : ℝ) - p2.cognitive.attention_span) ^ 2) / Real.sqrt 5
  let bh_sim : ℝ := 1 - Real.sqrt (
    ((p1.behavioral.engagement_level : ℝ) - p2.behavioral.engagement_level) ^ 2 +
    ((p1.behavioral.persistence : ℝ) - p2.behavioral.persistence) ^ 2 +
    ((p1.behavioral.help_seeking : ℝ) - p2.behavioral.help_seeking) ^ 2 +
    ((p1.behavioral.collaboration_preference : ℝ) - p2.behavioral.collaboration_preference) ^ 2 +
    ((p1.behavioral.self_regulation : ℝ) - p2.behavioral.self_regulation) ^ 2) / Real.sqrt 5
  max 0 (min 1 ((30:ℝ)/100 * ls_sim + (25:ℝ)/100 * pr_sim +
                (25:ℝ)/100 * cg_sim + (20:ℝ)/100 * bh_sim))

/-- The profile cache `Dict[str, LearnerProfile]` as an association list
in insertion order. -/
abbrev Store := List (String × LearnerProfile)

/-- Descending-by-similarity order on `(identifier, similarity)` pairs,
as used by `sims.sort(key=lambda x: x[1], reverse=True)`. -/
def simDesc (a b : String × ℝ) : Prop := b.2 ≤ a.2

noncomputable instance : DecidableRel simDesc := fun _ _ => Classical.propDecidable _

instance : IsTotal (String × ℝ) simDesc := ⟨fun a b => le_total b.2 a.2⟩

instance : IsTrans (String × ℝ) simDesc := ⟨fun _ _ _ h₁ h₂ => le_trans h₂ h₁⟩

/-- The `sims` list of `get_similar_learners`: every other cached entry
paired with its similarity to the target, in cache iteration order. -/
noncomputable def simsFor (cache : Store) (learner_id : String) (target : LearnerProfile) :
    List (String × ℝ) :=
  (cache.filter (fun kv => kv.1 != learner_id)).map
    (fun kv => (kv.1, _calculate_profile_similarity target kv.2))

/-- Embeds `sims.sort(key=lambda x: x[1], reverse=True)`: Python's stable sort,
descending by similarity (insertion sort is the same stable sort). -/
noncomputable def sortSims (l : List (String × ℝ)) : List (String × ℝ) :=
  List.insertionSort simDesc l

/-- Embeds `ProfileGenerator.get_similar_learners`. -/
noncomputable def get_similar_learners (cache : Store) (learner_id : String)
    (n_similar : Nat) : List String :=
  match cache.lookup learner_id with
  | none => []
  | some target =>
    if cache.length < 2 then []
    else ((sortSims (simsFor cache learner_id target)).take n_similar).map Prod.fst

/-- Models the JSON rendering of a string by `json.dumps`
(`ensure_ascii=False`; escaping of special characters not modelled). -/
def jsonStr (s : String) : String := "\"" ++ s ++ "\""

/-- Models the rendering of a float by `json.dumps` (Python's shortest
round-trip float repr is modelled by the exact rational rendering). -/
def numRepr (q : ℚ) : String := toString q

/-- Models the `indent=2` rendering of a JSON list of strings nested at
depth 1 (`[]` when empty, one item per line otherwise). -/
def jsonList (l : List String) : String :=
  if l = [] then "[]"
  else "[\n" ++ String.intercalate ",\n" (l.map (fun s => "    " ++ jsonStr s)) ++ "\n  ]"

/-- Models `json.dumps(asdict(profile), indent=2, ensure_ascii=False)`
with `last_updated` replaced by its `isoformat()` string, keys in
dataclass field order. -/
def jsonOfProfile (p : LearnerProfile) : String :=
  "\x7b\n  \"learner_id\": " ++ jsonStr p.learner_id ++ ",\n" ++
  "  \"learning_style\": \x7b\n" ++
  "    \"visual\": " ++ numRepr p.learning_style.visual ++ ",\n" ++
  "    \"auditory\": " ++ numRepr p.learning_style.auditory ++ ",\n" ++
  "    \"reading\": " ++ numRepr p.learning_style.reading ++ ",\n" ++
  "    \"kinesthetic\": " ++ numRepr p.learning_style.kinesthetic ++ "\n  \x7d,\n" ++
  "  \"personality\": \x7b\n" ++
  "    \"extraversion\": " ++ numRepr p.personality.extraversion ++ ",\n" ++
  "    \"intuition\": " ++ numRepr p.personality.intuition ++ ",\n" ++
  "    \"thinking\": " ++ numRepr p.personality.thinking ++ ",\n" ++
  "    \"judging\": " ++ numRepr p.personality.judging ++ "\n  \x7d,\n" ++
  "  \"cognitive\": \x7b\n" ++
  "    \"processing_speed\": " ++ numRepr p.cognitive.processing_speed ++ ",\n" ++
  "    \"working_memory\": " ++ numRepr p.cognitive.working_memory ++ ",\n" ++
  "    \"analytical_thinking\": " ++ numRepr p.cognitive.analytical_thinking ++ ",\n" ++
  "    \"creative_thinking\": " ++ numRepr p.cognitive.creative_thinking ++ ",\n" ++
  "    \"attention_span\": " ++ numRepr p.cognitive.attention_span ++ "\n  \x7d,\n" ++
  "  \"behavioral\": \x7b\n" ++
  "    \"engagement_level\": " ++ numRepr p.behavioral.engagement_level ++ ",\n" ++
  "    \"persistence\": " ++ numRepr p.behavioral.persistence ++ ",\n" ++
  "    \"help_seeking\": " ++ numRepr p.behavioral.help_seeking ++ ",\n" ++
  "    \"collaboration_preference\": " ++ numRepr p.behavioral.collaboration_preference ++ ",\n" ++
  "    \"self_regulation\": " ++ numRepr p.behavioral.self_regulation ++ "\n  \x7d,\n" ++
  "  \"difficulty_areas\": " ++ jsonList p.difficulty_areas ++ ",\n" ++
  "  \"strengths\": " ++ jsonList p.strengths ++ ",\n" ++
  "  \"recommended_strategies\": " ++ jsonList p.recommended_strategies ++ ",\n" ++
  "  \"confidence_level\": " ++ numRepr p.confidence_level ++ ",\n" ++
  "  \"last_updated\": " ++ jsonStr (isoformat p.last_updated) ++ "\n\x7d"

/-- Embeds lowercase conversion as used for `str.lower()`. -/
def lowerStr (s : String) : String := String.mk (s.data.map Char.toLower)

/-- Embeds `ProfileGenerator.export_profile`: empty string when the
identifier is absent or the format is not `json`, otherwise the JSON
serialization of the cached profile. -/
def export_profile (cache : Store) (learner_id : String) (fmt : String) : String :=
  match cache.lookup learner_id with
  | none => ""
  | some profile => if lowerStr fmt = "json" then jsonOfProfile profile else ""

/-- Embeds Python `sep.join(parts)`. -/
def joinSep (sep : String) : List String → String
  | [] => ""
  | [x] => x
  | x :: y :: xs => x ++ sep ++ joinSep sep (y :: xs)

/-- Embeds the `vark_descriptions` mapping of `PromptTransformer`. -/
def vark_descriptions : String → String
  | "visual" => "visuel"
  | "auditory" => "auditif"
  | "reading" => "lecture/écriture"
  | "kinesthetic" => "kinesthésique"
  | _ => ""

/-- Descending-by-score order on `(style, score)` pairs, as used by
`sorted(styles.items(), key=lambda x: x[1], reverse=True)`. -/
def scoreDesc (a b : String × ℚ) : Prop := b.2 ≤ a.2

instance : DecidableRel scoreDesc := fun a b => inferInstanceAs (Decidable (b.2 ≤ a.2))

instance : IsTotal (String × ℚ) scoreDesc := ⟨fun a b => le_total b.2 a.2⟩

instance : IsTrans (String × ℚ) scoreDesc := ⟨fun _ _ _ h₁ h₂ => le_trans h₂ h₁⟩

/-- Python's stable descending sort on `(style, score)` pairs. -/
def sortStyles (l : List (String × ℚ)) : List (String × ℚ) :=
  List.insertionSort scoreDesc l

/-- Embeds `PromptTransformer._get_dominant_learning_style`. -/
def _get_dominant_learning_style (ls : LearningStyle) : String :=
  let styles := [("visual", ls.visual), ("auditory", ls.auditory),
                 ("reading", ls.reading), ("kinesthetic", ls.kinesthetic)]
  let sorted_styles := sortStyles styles
  let dominant_style := (sorted_styles.headD ("visual", 0)).1
  let secondary_styles :=
    ((sorted_styles.drop 1).filter (fun sc => (1:ℚ)/5 < sc.2)).map Prod.fst
  let text := "apprenant principalement " ++ vark_descriptions dominant_style
  if secondary_styles ≠ [] then
    text ++ " avec des tendances " ++
      joinSep " et " (secondary_styles.map vark_descriptions)
  else text

/-- Embeds `PromptTransformer._get_personality_traits`. -/
def _get_personality_traits (p : PersonalityProfile) : String :=
  let traits :=
    (if 3/5 < p.extraversion then ["extraverti"]
     else if p.extraversion < 2/5 then ["introverti"] else []) ++
    (if 3/5 < p.intuition then ["intuitif"]
     else if p.intuition < 2/5 then ["concret"] else []) ++
    (if 3/5 < p.thinking then ["analytique"]
     else if p.thinking < 2/5 then ["empathique"] else []) ++
    (if 3/5 < p.judging then ["organisé"]
     else if p.judging < 2/5 then ["flexible"] else [])
  if traits ≠ [] then "de personnalité " ++ joinSep ", " traits
  else "de personnalité équilibrée"

/-- Embeds `PromptTransformer._get_cognitive_characteristics`. -/
def _get_cognitive_characteristics (c : CognitiveProfile) : String :=
  let characteristics :=
    (if 7/10 < c.processing_speed then ["traitement rapide"]
     else if c.processing_speed < 3/10 then ["traitement réfléchi"] else []) ++
    (if 7/10 < c.working_memory then ["bonne mémoire de travail"]
     else if c.working_memory < 3/10 then ["mémoire de travail limitée"] else []) ++
    (if 7/10 < c.analytical_thinking then ["forte capacité analytique"] else []) ++
    (if 7/10 < c.creative_thinking then ["pensée créative développée"] else []) ++
    (if 7/10 < c.attention_span then ["bonne capacité d'attention"]
     else if c.attention_span < 3/10 then ["attention limitée"] else [])
  if characteristics ≠ [] then "avec " ++ joinSep ", " characteristics
  else "avec des capacités cognitives moyennes"

/-- Embeds `PromptTransformer._get_behavioral_patterns`. -/
def _get_behavioral_patterns (b : BehavioralProfile) : String :=
  let patterns :=
    (if 7/10 < b.engagement_level then ["très engagé"]
     else if b.engagement_level < 3/10 then ["engagement faible"] else []) ++
    (if 7/10 < b.persistence then ["persistant"]
     else if b.persistence < 3/10 then ["abandonne facilement"] else []) ++
    (if 7/10 < b.help_seeking then ["demande souvent de l'aide"]
     else if b.help_seeking < 3/10 then ["autonome"] else []) ++
    (if 7/10 < b.collaboration_preference then ["préfère le travail collaboratif"]
     else if b.collaboration_preference < 3/10 then ["préfère le travail individuel"] else []) ++
    (if 7/10 < b.self_regulation then ["bonne autorégulation"]
     else if b.self_regulation < 3/10 then ["autorégulation faible"] else [])
  if patterns ≠ [] then "Il est " ++ joinSep ", " patterns
  else "Il présente des comportements d'apprentissage équilibrés"

/-- Embeds `PromptTransformer._format_strengths`. -/
def _format_strengths (strengths : List String) : String :=
  if strengths ≠ [] then "Ses forces incluent : " ++ lowerStr (joinSep ", " strengths)
  else ""

/-- Embeds `PromptTransformer._format_difficulties`. -/
def _format_difficulties (difficulties : List String) : String :=
  if difficulties ≠ [] then "Ses difficultés incluent : " ++ lowerStr (joinSep ", " difficulties)
  else ""

/-- The low-confidence directive appended when `confidence_level < 0.3`. -/
def simplifiedDirective : String :=
  " Privilégier une interface simple et rassurante avec des guides étape par étape."

/-- The high-confidence directive appended when `confidence_level > 0.7`. -/
def advancedDirective : String :=
  " Permettre une interface avancée avec des options de personnalisation étendues."

/-- The closing sentence always appended to the prompt. -/
def footerText : String :=
  " La configuration doit inclure le thème, la mise en page, la palette de couleurs et les éléments interactifs recommandés."

/-- Embeds `PromptTransformer._build_comprehensive_prompt`. -/
def _build_comprehensive_prompt (learning_style personality cognitive behavioral
    strengths difficulties : String) (confidence : ℚ) : String :=
  let base_prompt := "Générer une configuration UI/UX personnalisée pour un " ++
    learning_style ++ " " ++ personality ++ " " ++ cognitive ++ ". " ++ behavioral ++ "."
  let context_parts := (if strengths ≠ "" then [strengths] else []) ++
                       (if difficulties ≠ "" then [difficulties] else [])
  let base_prompt := if context_parts ≠ [] then
      base_prompt ++ " " ++ joinSep " " context_parts ++ "."
    else base_prompt
  let base_prompt := if confidence < 3/10 then base_prompt ++ simplifiedDirective
    else if 7/10 < confidence then base_prompt ++ advancedDirective
    else base_prompt
  base_prompt ++ footerText

/-- Embeds `PromptTransformer.profile_to_prompt`. -/
def profile_to_prompt (p : LearnerProfile) : String :=
  _build_comprehensive_prompt
    (_get_dominant_learning_style p.learning_style)
    (_get_personality_traits p.personality)
    (_get_cognitive_characteristics p.cognitive)
    (_get_behavioral_patterns p.behavioral)
    (_format_strengths p.strengths)
    (_format_difficulties p.difficulty_areas)
    p.confidence_level

/-! ### Helper lemmas -/

theorem clip01_bounds (x : ℚ) : 0 ≤ _clip01 x ∧ _clip01 x ≤ 1 :=
  ⟨le_max_left 0 _, max_le (by norm_num) (min_le_left 1 x)⟩

theorem clip01_eq_self {x : ℚ} (h0 : 0 ≤ x) (h1 : x ≤ 1) : _clip01 x = x := by
  unfold _clip01
  rw [min_eq_right h1, max_eq_right h0]

theorem half_le_clip01 {x : ℚ} : 1/2 ≤ _clip01 x ↔ 1/2 ≤ x := by
  unfold _clip01
  rw [le_max_iff, le_min_iff]
  constructor
  · rintro (h | ⟨-, h⟩)
    · norm_num at h
    · exact h
  · intro h
    exact Or.inr ⟨by norm_num, h⟩

theorem le_pyMax (x : ℚ) (xs : List ℚ) : x ≤ pyMax x xs := by
  induction xs generalizing x with
  | nil => exact le_refl x
  | cons y ys ih => exact le_trans (le_max_left x y) (ih (max x y))

theorem pyMax_bounds {x : ℚ} {xs : List ℚ} (hx : 0 ≤ x ∧ x ≤ 1)
    (hxs : ∀ y ∈ xs, 0 ≤ y ∧ y ≤ 1) : 0 ≤ pyMax x xs ∧ pyMax x xs ≤ 1 := by
  induction xs generalizing x with
  | nil => exact hx
  | cons y ys ih =>
    have hy := hxs y (List.mem_cons_self y ys)
    exact ih ⟨le_trans hx.1 (le_max_left x y), max_le hx.2 hy.2⟩
      (fun z hz => hxs z (List.mem_cons_of_mem y hz))

/-- The MBTI confidence computed by `get_profiles_for_conversation`,
written out as the Python `max` over the eight per-letter scores. -/
theorem mbtiConf_eq (fs : Features) :
    (get_profiles_for_conversation fs).mbtiConf =
      pyMax (_clip01 (featPersonality fs).extraversion)
        [1 - _clip01 (featPersonality fs).extraversion,
         _clip01 (featPersonality fs).intuition,
         1 - _clip01 (featPersonality fs).intuition,
         _clip01 (featPersonality fs).thinking,
         1 - _clip01 (featPersonality fs).thinking,
         _clip01 (featPersonality fs).judging,
         1 - _clip01 (featPersonality fs).judging] := rfl

/-! ### C1 -/

/-- C1 (clamp invariant): every scalar trait field of a profile produced
by `merge_profiles`, and every numeric value in the output of
`get_profiles_for_conversation` (VARK probabilities, combined scores and
MBTI confidence), lies in `[0,1]`, for arbitrary — even out-of-range —
inputs. -/
theorem C1_clamp_invariant :
    (∀ (e n : LearnerProfile) (w : ℚ) (now : Datetime),
       ∀ x ∈ scalarFields (merge_profiles e n w now), 0 ≤ x ∧ x ≤ 1) ∧
    (∀ fs : Features,
       ∀ v ∈ numericOutputs (get_profiles_for_conversation fs), 0 ≤ v ∧ v ≤ 1) := by
  constructor
  · intro e n w now x hx
    simp only [scalarFields, merge_profiles, _merge_learning_style, List.mem_cons,
      List.not_mem_nil, or_false] at hx
    rcases hx with h|h|h|h|h|h|h|h|h|h|h|h|h|h|h|h|h|h|h <;> subst h <;>
      exact clip01_bounds _
  · intro fs v hv
    have hE := clip01_bounds (featPersonality fs).extraversion
    have hN := clip01_bounds (featPersonality fs).intuition
    have hT := clip01_bounds (featPersonality fs).thinking
    have hJ := clip01_bounds (featPersonality fs).judging
    simp only [numericOutputs, get_profiles_for_conversation,
      _infer_vark_from_learning_style, _infer_mbti_from_personality,
      List.map_cons, List.map_nil, List.map_append, List.mem_append, List.mem_cons,
      List.not_mem_nil, or_false, List.headD_cons, List.tail_cons] at hv
    rcases hv with (h | h) | h
    · rcases h with h|h|h|h <;> subst h <;> exact clip01_bounds _
    · rcases h with (h|h|h|h) | (h|h|h|h|h|h|h|h) <;> subst h <;> constructor <;>
        linarith [hE.1, hE.2, hN.1, hN.2, hT.1, hT.2, hJ.1, hJ.2,
          (clip01_bounds (featLearningStyle fs).visual).1,
          (clip01_bounds (featLearningStyle fs).visual).2,
          (clip01_bounds (featLearningStyle fs).auditory).1,
          (clip01_bounds (featLearningStyle fs).auditory).2,
          (clip01_bounds (featLearningStyle fs).reading).1,
          (clip01_bounds (featLearningStyle fs).reading).2,
          (clip01_bounds (featLearningStyle fs).kinesthetic).1,
          (clip01_bounds (featLearningStyle fs).kinesthetic).2]
    · subst h
      refine pyMax_bounds hE ?_
      intro y hy
      simp only [List.mem_cons, List.not_mem_nil, or_false] at hy
      rcases hy with h|h|h|h|h|h|h <;> subst h <;> constructor <;>
        linarith [hE.1, hE.2, hN.1, hN.2, hT.1, hT.2, hJ.1, hJ.2]

/-! ### C10 -/

/-- C10 (implicit MBTI confidence lower bound): the confidence returned
by `get_profiles_for_conversation` is always at least `0.5`, because the
eight per-letter scores come in complementary clipped pairs `E, 1-E`,
`N, 1-N`, `T, 1-T`, `J, 1-J`, and the maximum of each pair is `≥ 0.5`. -/
theorem C10_mbti_confidence_at_least_half (fs : Features) :
    1/2 ≤ (get_profiles_for_conversation fs).mbtiConf := by
  rw [mbtiConf_eq]
  have hhalf : (1:ℚ)/2 ≤ max (_clip01 (featPersonality fs).extraversion)
      (1 - _clip01 (featPersonality fs).extraversion) := by
    rcases le_total ((1:ℚ)/2) (_clip01 (featPersonality fs).extraversion) with hle | hle
    · exact le_trans hle (le_max_left _ _)
    · exact le_trans (by linarith) (le_max_right _ _)
  exact le_trans hhalf (le_pyMax _ _)

theorem pyMax_mem (x : ℚ) (xs : List ℚ) : pyMax x xs ∈ x :: xs := by
  induction xs generalizing x with
  | nil => simp [pyMax]
  | cons y ys ih =>
    have h : pyMax x (y :: ys) = pyMax (max x y) ys := rfl
    rw [h]
    rcases List.mem_cons.mp (ih (max x y)) with h' | h'
    · rw [h']
      rcases max_choice x y with hm | hm <;> rw [hm] <;> simp
    · simp [List.mem_cons, h']

theorem pyMax_ge (x : ℚ) (xs : List ℚ) : ∀ y ∈ x :: xs, y ≤ pyMax x xs := by
  induction xs generalizing x with
  | nil => intro y hy; simp at hy; simp [pyMax, hy]
  | cons z zs ih =>
    intro y hy
    rcases List.mem_cons.mp hy with h | h
    · subst h
      exact le_trans (le_max_left y z) (le_pyMax _ _)
    · rcases List.mem_cons.mp h with h | h
      · subst h
        exact le_trans (le_max_right x y) (le_pyMax _ _)
      · exact ih (max x z) y (List.mem_cons_of_mem _ h)

/-- The feature mapping of the spec's scenario (§8). -/
def specFeatures : Features :=
  [("ls_visual", 7/10), ("ls_auditory", 1/10), ("ls_reading", 3/20),
   ("ls_kinesthetic", 1/20), ("pers_extraversion", 3/10), ("pers_intuition", 4/5),
   ("pers_thinking", 3/5), ("pers_judging", 11/20)]

/-! ### C3 -/

/-- C3 (MBTI thresholds and confidence): the MBTI label is built from
four independent threshold decisions where an axis value `≥ 0.5` (the
boundary included) yields the positive letter E/N/T/J and `< 0.5` the
negative letter I/S/F/P; the per-letter score list is the eight clipped
complementary scores; the returned confidence is their maximum (it is an
attained upper bound of the eight); and on the spec's scenario features
the pipeline yields label `INTJ` with confidence `0.8`. -/
theorem C3_mbti_threshold_label_and_max_confidence :
    (∀ pers : PersonalityProfile,
       (_infer_mbti_from_personality pers).1 =
         (if 1/2 ≤ pers.extraversion then "E" else "I") ++
         (if 1/2 ≤ pers.intuition then "N" else "S") ++
         (if 1/2 ≤ pers.thinking then "T" else "F") ++
         (if 1/2 ≤ pers.judging then "J" else "P") ∧
       ((_infer_mbti_from_personality pers).2.map Prod.snd) =
         [_clip01 pers.extraversion, 1 - _clip01 pers.extraversion,
          _clip01 pers.intuition, 1 - _clip01 pers.intuition,
          _clip01 pers.thinking, 1 - _clip01 pers.thinking,
          _clip01 pers.judging, 1 - _clip01 pers.judging]) ∧
    (∀ fs : Features,
       (get_profiles_for_conversation fs).mbtiConf ∈
         ((_infer_mbti_from_personality (featPersonality fs)).2.map Prod.snd) ∧
       ∀ s ∈ ((_infer_mbti_from_personality (featPersonality fs)).2.map Prod.snd),
         s ≤ (get_profiles_for_conversation fs).mbtiConf) ∧
    (get_profiles_for_conversation specFeatures).mbtiLabel = "INTJ" ∧
    (get_profiles_for_conversation specFeatures).mbtiConf = 4/5 := by
  refine ⟨fun pers => ⟨?_, rfl⟩, fun fs => ⟨?_, ?_⟩, ?_, ?_⟩
  · simp only [_infer_mbti_from_personality, half_le_clip01]
  · rw [mbtiConf_eq]
    exact pyMax_mem _ _
  · intro s hs
    rw [mbtiConf_eq]
    exact pyMax_ge _ _ s hs
  · have h : featPersonality specFeatures = ⟨3/10, 4/5, 3/5, 11/20⟩ := by rfl
    show (_infer_mbti_from_personality (featPersonality specFeatures)).1 = "INTJ"
    rw [h]
    norm_num [_infer_mbti_from_personality, _clip01]
    rfl
  · have h : featPersonality specFeatures = ⟨3/10, 4/5, 3/5, 11/20⟩ := by rfl
    rw [mbtiConf_eq, h]
    norm_num [pyMax, _clip01]

/-! ### C4 -/

/-- C4 (VARK argmax with fixed-order tie-break): for in-range inputs the
VARK label is the argmax over the four axis scores, a tie resolved to the
first tied axis in the order V, A, R, K; and with all four axes equal
(any common value, e.g. all `0.25`) the label is always `V`. -/
theorem C4_vark_argmax_first_tie (ls : LearningStyle)
    (h1 : 0 ≤ ls.visual ∧ ls.visual ≤ 1) (h2 : 0 ≤ ls.auditory ∧ ls.auditory ≤ 1)
    (h3 : 0 ≤ ls.reading ∧ ls.reading ≤ 1)
    (h4 : 0 ≤ ls.kinesthetic ∧ ls.kinesthetic ≤ 1) :
    ((_infer_vark_from_learning_style ls).1 =
       if ls.auditory ≤ ls.visual ∧ ls.reading ≤ ls.visual ∧ ls.kinesthetic ≤ ls.visual
       then "V"
       else if ls.reading ≤ ls.auditory ∧ ls.kinesthetic ≤ ls.auditory then "A"
       else if ls.kinesthetic ≤ ls.reading then "R"
       else "K") ∧
    ∀ c : ℚ, (_infer_vark_from_learning_style ⟨c, c, c, c⟩).1 = "V" := by
  constructor
  · simp only [_infer_vark_from_learning_style, pyArgmax]
    rw [clip01_eq_self h1.1 h1.2, clip01_eq_self h2.1 h2.2,
        clip01_eq_self h3.1 h3.2, clip01_eq_self h4.1 h4.2]
    split_ifs <;> simp_all <;> linarith
  · intro c
    simp [_infer_vark_from_learning_style, pyArgmax, lt_irrefl]

/-- Witness for C4 at a concrete in-range input: scores
`(0.1, 0.9, 0.2, 0.3)` give label `A`, and equal scores give `V`. -/
theorem C4_vark_argmax_first_tie_witness :
    (_infer_vark_from_learning_style ⟨1/10, 9/10, 1/5, 3/10⟩).1 = "A" ∧
    (_infer_vark_from_learning_style ⟨1/4, 1/4, 1/4, 1/4⟩).1 = "V" := by
  have h := C4_vark_argmax_first_tie ⟨1/10, 9/10, 1/5, 3/10⟩
    (by norm_num) (by norm_num) (by norm_num) (by norm_num)
  constructor
  · rw [h.1]
    norm_num
  · exact h.2 (1/4)

theorem map_clip01_of_valid {l : List ℚ} (h : ∀ x ∈ l, 0 ≤ x ∧ x ≤ 1) :
    l.map _clip01 = l := by
  induction l with
  | nil => rfl
  | cons x xs ih =>
    have hx := h x (List.mem_cons_self x xs)
    rw [List.map_cons, clip01_eq_self hx.1 hx.2,
        ih (fun y hy => h y (List.mem_cons_of_mem x hy))]

theorem merge_self_fields (p : LearnerProfile) (w : ℚ) (now : Datetime) :
    scalarFields (merge_profiles p p w now) = (scalarFields p).map _clip01 := by
  have key : ∀ a b : ℚ, a * (1 - b) + a * b = a := fun a b => by ring
  simp [merge_profiles, scalarFields, _merge_learning_style, key]

theorem merge_zero_fields (e n : LearnerProfile) (now : Datetime) :
    scalarFields (merge_profiles e n 0 now) = (scalarFields e).map _clip01 := by
  have h0 : _clip01 (0:ℚ) = 0 := by norm_num [_clip01]
  simp [merge_profiles, scalarFields, _merge_learning_style, h0]

theorem merge_one_fields (e n : LearnerProfile) (now : Datetime) :
    scalarFields (merge_profiles e n 1 now) = (scalarFields n).map _clip01 := by
  have h1 : _clip01 (1:ℚ) = 1 := by norm_num [_clip01]
  simp [merge_profiles, scalarFields, _merge_learning_style, h1]

/-- The `seen` set accumulated by `_dedup_keep_order` after a prefix. -/
def seenAfter (seen : List String) : List String → List String
  | [] => seen
  | x :: xs => seenAfter (if x ∈ seen then seen else x :: seen) xs

theorem dedupAux_append (seen l₁ l₂ : List String) :
    dedupAux seen (l₁ ++ l₂) = dedupAux seen l₁ ++ dedupAux (seenAfter seen l₁) l₂ := by
  induction l₁ generalizing seen with
  | nil => rfl
  | cons x xs ih =>
    by_cases hx : x ∈ seen <;> simp [dedupAux, seenAfter, hx, ih]

theorem mem_seenAfter (seen l : List String) (x : String)
    (h : x ∈ seen ∨ x ∈ l) : x ∈ seenAfter seen l := by
  induction l generalizing seen with
  | nil => simpa using h
  | cons y ys ih =>
    by_cases hy : y ∈ seen
    · simp only [seenAfter, if_pos hy]
      refine ih seen ?_
      rcases h with h | h
      · exact Or.inl h
      · rcases List.mem_cons.mp h with h | h
        · exact Or.inl (h ▸ hy)
        · exact Or.inr h
    · simp only [seenAfter, if_neg hy]
      refine ih (y :: seen) ?_
      rcases h with h | h
      · exact Or.inl (List.mem_cons_of_mem y h)
      · rcases List.mem_cons.mp h with h | h
        · exact Or.inl (h ▸ List.mem_cons_self y seen)
        · exact Or.inr h

theorem dedupAux_eq_nil (seen l : List String) (h : ∀ x ∈ l, x ∈ seen) :
    dedupAux seen l = [] := by
  induction l with
  | nil => rfl
  | cons x xs ih =>
    have hx : x ∈ seen := h x (List.mem_cons_self x xs)
    simp [dedupAux, hx]
    exact ih (fun y hy => h y (List.mem_cons_of_mem x hy))

theorem dedup_append_self (l : List String) :
    _dedup_keep_order (l ++ l) = _dedup_keep_order l := by
  unfold _dedup_keep_order
  rw [dedupAux_append]
  rw [dedupAux_eq_nil (seenAfter [] l) l
    (fun x hx => mem_seenAfter [] l x (Or.inr hx))]
  simp

/-- A fixed timestamp standing for `datetime.utcnow()` in witnesses. -/
def t0 : Datetime := ⟨2025, 1, 1, 12, 0, 0, 0⟩

/-- A concrete valid profile used by witnesses. -/
def profB : LearnerProfile :=
  ⟨"bob", ⟨0, 1, 1/4, 1/4⟩, ⟨1/2, 1/2, 1/2, 1/2⟩, ⟨1/2, 1/2, 1/2, 1/2, 1/2⟩,
   ⟨1/2, 1/2, 1/2, 1/2, 1/2⟩, ["Logic"], ["Logic", "Sets"], [], 7/10, t0⟩

/-- A concrete profile with out-of-range scores used by witnesses. -/
def profA : LearnerProfile :=
  ⟨"alice", ⟨2, -1, 1/2, 1/4⟩, ⟨3/10, 4/5, 3/5, 11/20⟩, ⟨1/2, 1/2, 1/2, 1/2, 1/2⟩,
   ⟨1/2, 1/2, 1/2, 1/2, 1/2⟩, ["algebra"], ["Geometry", "Logic"], [], 3/5, t0⟩

/-- Witness for C1 at concrete inputs: the first merged learning-style
score of two concrete profiles (an out-of-range `2` blended with `0`,
clamped to `1`) and a concrete inference output value both lie in
`[0,1]`. -/
theorem C1_clamp_invariant_witness :
    (0 ≤ (1:ℚ) ∧ (1:ℚ) ≤ 1) ∧ (0 ≤ (7:ℚ)/10 ∧ (7:ℚ)/10 ≤ 1) :=
  ⟨C1_clamp_invariant.1 profA profB (1/2) t0 1
     (by norm_num [merge_profiles, scalarFields, _merge_learning_style,
        _clip01, profA, profB]),
   C1_clamp_invariant.2 specFeatures (7/10)
     (by
        have h : featLearningStyle specFeatures = ⟨7/10, 1/10, 3/20, 1/20⟩ := rfl
        have h2 : featPersonality specFeatures = ⟨3/10, 4/5, 3/5, 11/20⟩ := rfl
        norm_num [numericOutputs, get_profiles_for_conversation,
          _infer_vark_from_learning_style, _infer_mbti_from_personality,
          h, h2, _clip01, pyMax])⟩

/-- Witness for C3: applying the max-characterisation of the confidence
at the scenario features and the per-letter score `0.3`. -/
theorem C3_mbti_witness :
    (3:ℚ)/10 ≤ (get_profiles_for_conversation specFeatures).mbtiConf := by
  refine (C3_mbti_threshold_label_and_max_confidence.2.1 specFeatures).2 (3/10) ?_
  have h : featPersonality specFeatures = ⟨3/10, 4/5, 3/5, 11/20⟩ := rfl
  rw [h]
  norm_num [_infer_mbti_from_personality, _clip01]

/-! ### C2 -/

/-- C2 (fusion blend): for any two profiles and weight `w ∈ [0,1]`,
`merge_profiles` combines each of the 19 scalar fields as
`existing*(1-w) + incoming*w` clamped to `[0,1]` and takes the identifier
from `existing`; at `w = 0` every scalar field equals the existing
profile's (for a valid existing profile), and at `w = 1` every scalar
field equals the incoming profile's (for a valid incoming profile). -/
theorem C2_merge_weighted_blend (e n : LearnerProfile) (w : ℚ) (now : Datetime)
    (hw0 : 0 ≤ w) (hw1 : w ≤ 1) :
    scalarFields (merge_profiles e n w now) =
      List.zipWith (fun a b => _clip01 (a * (1 - w) + b * w))
        (scalarFields e) (scalarFields n) ∧
    (merge_profiles e n w now).learner_id = e.learner_id ∧
    (validProfile e → scalarFields (merge_profiles e n 0 now) = scalarFields e) ∧
    (validProfile n → scalarFields (merge_profiles e n 1 now) = scalarFields n) := by
  refine ⟨?_, rfl, ?_, ?_⟩
  · have hww : _clip01 w = w := clip01_eq_self hw0 hw1
    simp [merge_profiles, scalarFields, _merge_learning_style, hww]
  · intro hv
    rw [merge_zero_fields, map_clip01_of_valid hv]
  · intro hv
    rw [merge_one_fields, map_clip01_of_valid hv]

/-- Witness for C2 at concrete profiles: the merged identifier is the
existing one and the zero-weight merge preserves the (valid) existing
profile's scalar fields. -/
theorem C2_merge_weighted_blend_witness :
    (merge_profiles profB profA (1/2) t0).learner_id = "bob" ∧
    scalarFields (merge_profiles profB profA 0 t0) = scalarFields profB := by
  have h := C2_merge_weighted_blend profB profA (1/2) t0 (by norm_num) (by norm_num)
  exact ⟨h.2.1, h.2.2.1 (by norm_num [validProfile, scalarFields, profB])⟩

/-! ### C6 -/

/-- C6 (fusion idempotence): for every valid profile `p` and every
weight, `merge_profiles p p w` preserves all 19 scalar fields of `p`
numerically, and each of the three text lists of the result is the
deduplicated list of `p`. -/
theorem C6_merge_idempotent (p : LearnerProfile) (w : ℚ) (now : Datetime)
    (hv : validProfile p) :
    scalarFields (merge_profiles p p w now) = scalarFields p ∧
    (merge_profiles p p w now).strengths = _dedup_keep_order p.strengths ∧
    (merge_profiles p p w now).difficulty_areas = _dedup_keep_order p.difficulty_areas ∧
    (merge_profiles p p w now).recommended_strategies =
      _dedup_keep_order p.recommended_strategies := by
  refine ⟨?_, ?_, ?_, ?_⟩
  · rw [merge_self_fields, map_clip01_of_valid hv]
  · exact dedup_append_self p.strengths
  · exact dedup_append_self p.difficulty_areas
  · exact dedup_append_self p.recommended_strategies

/-- Witness for C6 at a concrete valid profile and weight `1/3`. -/
theorem C6_merge_idempotent_witness :
    scalarFields (merge_profiles profB profB (1/3) t0) = scalarFields profB ∧
    (merge_profiles profB profB (1/3) t0).strengths = ["Logic", "Sets"] := by
  have h := C6_merge_idempotent profB (1/3) t0
    (by norm_num [validProfile, scalarFields, profB])
  refine ⟨h.1, ?_⟩
  rw [h.2.1]
  rfl

/-! ### C5 -/

/-- C5 (similarity reflexivity): the pairwise similarity of any profile
with itself — the weighted sum `0.30/0.25/0.25/0.20` of per-group terms
`1 - distance/maxdistance`, clamped only at the end — equals exactly 1. -/
theorem C5_similarity_reflexive (p : LearnerProfile) :
    _calculate_profile_similarity p p = 1 := by
  unfold _calculate_profile_similarity
  simp [sub_self]
  norm_num [Real.sqrt_zero]

/-! ### C8 -/

/-- C8 (empty-result policy of similarity ranking): `get_similar_learners`
returns `[]` whenever the identifier is absent or the store holds fewer
than two profiles; it always returns at most `n` identifiers, never the
queried identifier itself; and in the non-degenerate case it returns the
first `n` identifiers of the similarity list sorted descending (the
sorted prefix is pairwise ordered by descending similarity).  The
function is total: no error is raised for an unknown identifier. -/
theorem C8_find_similar_empty_policy (cache : Store) (lid : String) (n : Nat) :
    ((cache.lookup lid = none ∨ cache.length < 2) →
       get_similar_learners cache lid n = []) ∧
    (get_similar_learners cache lid n).length ≤ n ∧
    lid ∉ get_similar_learners cache lid n ∧
    (∀ target, cache.lookup lid = some target → ¬ cache.length < 2 →
       get_similar_learners cache lid n =
         ((sortSims (simsFor cache lid target)).take n).map Prod.fst ∧
       List.Pairwise simDesc ((sortSims (simsFor cache lid target)).take n)) := by
  refine ⟨?_, ?_, ?_, ?_⟩
  · rintro (h | h)
    · simp [get_similar_learners, h]
    · cases hl : cache.lookup lid with
      | none => simp [get_similar_learners, hl]
      | some t => simp [get_similar_learners, hl, h]
  · cases hl : cache.lookup lid with
    | none => simp [get_similar_learners, hl]
    | some t =>
      by_cases hlen : cache.length < 2
      · simp [get_similar_learners, hl, hlen]
      · simp only [get_similar_learners, hl, if_neg hlen, List.length_map,
          List.length_take]
        exact min_le_left n _
  · cases hl : cache.lookup lid with
    | none => simp [get_similar_learners, hl]
    | some t =>
      by_cases hlen : cache.length < 2
      · simp [get_similar_learners, hl, hlen]
      · simp only [get_similar_learners, hl, if_neg hlen]
        intro hmem
        obtain ⟨pair, hpair, hfst⟩ := List.mem_map.mp hmem
        have h1 : pair ∈ sortSims (simsFor cache lid t) :=
          List.take_subset n _ hpair
        have h2 : pair ∈ simsFor cache lid t :=
          (List.perm_insertionSort simDesc _).mem_iff.mp h1
        obtain ⟨kv, hkv, hkvp⟩ := List.mem_map.mp h2
        have h3 := (List.mem_filter.mp hkv).2
        rw [← hkvp] at hfst
        simp only [bne_iff_ne, ne_eq] at h3
        exact h3 hfst
  · intro target hl hlen
    refine ⟨by simp [get_similar_learners, hl, hlen], ?_⟩
    exact List.Pairwise.sublist (List.take_sublist n _)
      (List.sorted_insertionSort simDesc _)

/-- Witness for C8: the empty store yields `[]`, and on a concrete
two-profile store the sorted similarity prefix is descending. -/
theorem C8_find_similar_empty_policy_witness :
    get_similar_learners ([] : Store) "zoe" 5 = [] ∧
    List.Pairwise simDesc
      ((sortSims (simsFor [("alice", profA), ("bob", profB)] "alice" profA)).take 5) := by
  constructor
  · exact (C8_find_similar_empty_policy [] "zoe" 5).1 (Or.inl rfl)
  · exact ((C8_find_similar_empty_policy [("alice", profA), ("bob", profB)]
      "alice" 5).2.2.2 profA rfl (by norm_num)).2

/-! ### C9 -/

theorem append_ne_empty_right (s t : String) (h : t.data ≠ []) : s ++ t ≠ "" := by
  intro heq
  have hd := congrArg String.data heq
  rw [show (s ++ t).data = s.data ++ t.data from rfl] at hd
  exact h (List.append_eq_nil.mp hd).2

theorem exists_decomp (L iso tail : String) :
    ∃ a b, (L ++ (("\"" ++ iso) ++ "\"")) ++ tail = (a ++ iso) ++ b :=
  ⟨L ++ "\"", "\"" ++ tail, by simp [String.append_assoc]⟩

/-- C9 (export not-found sentinel): exporting an unknown identifier
returns the empty string (no error is raised — the function is total);
exporting a cached identifier returns the JSON serialization of the full
profile, a nonempty string that embeds the `last_updated` timestamp in
its ISO-8601 `isoformat` rendering. -/
theorem C9_export_not_found_sentinel (cache : Store) (lid : String) :
    (cache.lookup lid = none → export_profile cache lid "json" = "") ∧
    (∀ p, cache.lookup lid = some p →
       export_profile cache lid "json" = jsonOfProfile p ∧
       export_profile cache lid "json" ≠ "" ∧
       ∃ a b, export_profile cache lid "json" = a ++ isoformat p.last_updated ++ b) := by
  refine ⟨fun h => by simp [export_profile, h], fun p hp => ?_⟩
  have hexp : export_profile cache lid "json" = jsonOfProfile p := by
    simp [export_profile, hp, lowerStr]
  refine ⟨hexp, ?_, ?_⟩
  · rw [hexp]
    unfold jsonOfProfile
    exact append_ne_empty_right _ _ (by decide)
  · rw [hexp]
    unfold jsonOfProfile jsonStr
    exact exists_decomp _ _ _

/-- Witness for C9: the empty store exports `""` for an unknown
identifier, and a concrete one-profile store exports its JSON. -/
theorem C9_export_not_found_sentinel_witness :
    export_profile ([] : Store) "zoe" "json" = "" ∧
    export_profile [("bob", profB)] "bob" "json" = jsonOfProfile profB :=
  ⟨(C9_export_not_found_sentinel [] "zoe").1 rfl,
   ((C9_export_not_found_sentinel [("bob", profB)] "bob").2 profB rfl).1⟩

/-! ### C7 -/

/-- The prompt-character invariant used for the neutral confidence band:
the string contains no uppercase `P` (both confidence directives do). -/
def noUpperP (s : String) : Prop := 'P' ∉ s.data

instance (s : String) : Decidable (noUpperP s) := by
  unfold noUpperP; infer_instance

theorem toLower_ne_P (c : Char) : Char.toLower c ≠ 'P' := by
  show (if c.toNat ≥ 65 ∧ c.toNat ≤ 90 then Char.ofNat (c.toNat + 32) else c) ≠ 'P'
  by_cases h : c.toNat ≥ 65 ∧ c.toNat ≤ 90
  · rw [if_pos h]
    intro heq
    have hvalid : (c.toNat + 32).isValidChar := Or.inl (by omega)
    have hval : (Char.ofNat (c.toNat + 32)).toNat = c.toNat + 32 := by
      unfold Char.ofNat
      rw [dif_pos hvalid]
      rfl
    rw [heq] at hval
    have h80 : ('P').toNat = 80 := rfl
    rw [h80] at hval
    omega
  · rw [if_neg h]
    intro heq
    subst heq
    exact h (by decide)

theorem noUpperP_append {a b : String} (ha : noUpperP a) (hb : noUpperP b) :
    noUpperP (a ++ b) := by
  unfold noUpperP at *
  rw [show (a ++ b).data = a.data ++ b.data from rfl]
  rw [List.mem_append]
  push_neg
  exact ⟨ha, hb⟩

theorem noUpperP_lower (s : String) : noUpperP (lowerStr s) := by
  unfold noUpperP lowerStr
  intro hmem
  obtain ⟨c, -, hc⟩ := List.mem_map.mp hmem
  exact toLower_ne_P c hc

theorem noUpperP_joinSep (sep : String) (hsep : noUpperP sep) :
    ∀ l : List String, (∀ x ∈ l, noUpperP x) → noUpperP (joinSep sep l)
  | [], _ => by unfold joinSep noUpperP; simp
  | [x], h => by simpa [joinSep] using h x (by simp)
  | x :: y :: ys, h => by
    have ih := noUpperP_joinSep sep hsep (y :: ys)
      (fun z hz => h z (List.mem_cons_of_mem x hz))
    simpa [joinSep] using
      noUpperP_append (noUpperP_append (h x (by simp)) hsep) ih

theorem mem_pair_ite {c₁ c₂ : Prop} [Decidable c₁] [Decidable c₂] {a b x : String}
    (hx : x ∈ (if c₁ then [a] else if c₂ then [b] else [])) : x = a ∨ x = b := by
  split_ifs at hx <;> simp at hx <;> tauto

theorem mem_single_ite {c : Prop} [Decidable c] {a x : String}
    (hx : x ∈ (if c then [a] else [])) : x = a := by
  split_ifs at hx
  · simpa using hx
  · simp at hx

theorem noUpperP_descriptor (pre fallback sep : String) (traits : List String)
    (hp : noUpperP pre) (hf : noUpperP fallback) (hsep : noUpperP sep)
    (ht : ∀ x ∈ traits, noUpperP x) :
    noUpperP (if traits ≠ [] then pre ++ joinSep sep traits else fallback) := by
  split_ifs with h
  · exact noUpperP_append hp (noUpperP_joinSep sep hsep traits ht)
  · exact hf

theorem noUpperP_personality (p : PersonalityProfile) :
    noUpperP (_get_personality_traits p) := by
  unfold _get_personality_traits
  refine noUpperP_descriptor _ _ _ _ (by decide) (by decide) (by decide) ?_
  intro x hx
  simp only [List.mem_append] at hx
  rcases hx with ((hx | hx) | hx) | hx <;>
    rcases mem_pair_ite hx with rfl | rfl <;> decide

theorem noUpperP_cognitive (c : CognitiveProfile) :
    noUpperP (_get_cognitive_characteristics c) := by
  unfold _get_cognitive_characteristics
  refine noUpperP_descriptor _ _ _ _ (by decide) (by decide) (by decide) ?_
  intro x hx
  simp only [List.mem_append] at hx
  rcases hx with (((hx | hx) | hx) | hx) | hx
  · rcases mem_pair_ite hx with rfl | rfl <;> decide
  · rcases mem_pair_ite hx with rfl | rfl <;> decide
  · rw [mem_single_ite hx]; decide
  · rw [mem_single_ite hx]; decide
  · rcases mem_pair_ite hx with rfl | rfl <;> decide

theorem noUpperP_behavioral (b : BehavioralProfile) :
    noUpperP (_get_behavioral_patterns b) := by
  unfold _get_behavioral_patterns
  refine noUpperP_descriptor _ _ _ _ (by decide) (by decide) (by decide) ?_
  intro x hx
  simp only [List.mem_append] at hx
  rcases hx with (((hx | hx) | hx) | hx) | hx <;>
    rcases mem_pair_ite hx with rfl | rfl <;> decide

theorem noUpperP_vark_descriptions (k : String) : noUpperP (vark_descriptions k) := by
  unfold vark_descriptions
  split <;> decide

theorem noUpperP_dominant (ls : LearningStyle) :
    noUpperP (_get_dominant_learning_style ls) := by
  unfold _get_dominant_learning_style
  dsimp only
  split_ifs with h
  · refine noUpperP_append (noUpperP_append (noUpperP_append (by decide)
      (noUpperP_vark_descriptions _)) (by decide)) ?_
    refine noUpperP_joinSep _ (by decide) _ ?_
    intro x hx
    obtain ⟨k, -, rfl⟩ := List.mem_map.mp hx
    exact noUpperP_vark_descriptions k
  · exact noUpperP_append (by decide) (noUpperP_vark_descriptions _)

theorem noUpperP_strengths (l : List String) : noUpperP (_format_strengths l) := by
  unfold _format_strengths
  split_ifs with h
  · exact noUpperP_append (by decide) (noUpperP_lower _)
  · decide

theorem noUpperP_difficulties (l : List String) : noUpperP (_format_difficulties l) := by
  unfold _format_difficulties
  split_ifs with h
  · exact noUpperP_append (by decide) (noUpperP_lower _)
  · decide

/-- The `base_prompt` of `_build_comprehensive_prompt` before context. -/
def basePrompt (ls pe co be : String) : String :=
  "Générer une configuration UI/UX personnalisée pour un " ++ ls ++ " " ++ pe ++
    " " ++ co ++ ". " ++ be ++ "."

/-- The `context_parts` list of `_build_comprehensive_prompt`. -/
def contextParts (st di : String) : List String :=
  (if st ≠ "" then [st] else []) ++ (if di ≠ "" then [di] else [])

/-- The prompt text up to (excluding) the confidence directive. -/
def contextBase (ls pe co be st di : String) : String :=
  if contextParts st di ≠ [] then
    basePrompt ls pe co be ++ " " ++ joinSep " " (contextParts st di) ++ "."
  else basePrompt ls pe co be

theorem build_prompt_eq (ls pe co be st di : String) (conf : ℚ) :
    _build_comprehensive_prompt ls pe co be st di conf =
      (if conf < 3/10 then contextBase ls pe co be st di ++ simplifiedDirective
       else if 7/10 < conf then contextBase ls pe co be st di ++ advancedDirective
       else contextBase ls pe co be st di) ++ footerText := rfl

theorem noUpperP_basePrompt {ls pe co be : String} (h1 : noUpperP ls)
    (h2 : noUpperP pe) (h3 : noUpperP co) (h4 : noUpperP be) :
    noUpperP (basePrompt ls pe co be) := by
  unfold basePrompt
  exact noUpperP_append (noUpperP_append (noUpperP_append (noUpperP_append
    (noUpperP_append (noUpperP_append (noUpperP_append (noUpperP_append
      (by decide) h1) (by decide)) h2) (by decide)) h3) (by decide)) h4)
    (by decide)

theorem noUpperP_contextBase {ls pe co be st di : String} (h1 : noUpperP ls)
    (h2 : noUpperP pe) (h3 : noUpperP co) (h4 : noUpperP be)
    (h5 : noUpperP st) (h6 : noUpperP di) :
    noUpperP (contextBase ls pe co be st di) := by
  unfold contextBase
  split_ifs with h
  · refine noUpperP_append (noUpperP_append (noUpperP_append
      (noUpperP_basePrompt h1 h2 h3 h4) (by decide)) ?_) (by decide)
    refine noUpperP_joinSep _ (by decide) _ ?_
    intro x hx
    unfold contextParts at hx
    rw [List.mem_append] at hx
    rcases hx with hx | hx <;> rw [mem_single_ite hx] <;> assumption
  · exact noUpperP_basePrompt h1 h2 h3 h4

theorem mem_data_append_mid (a d b : String) (h : 'P' ∈ d.data) :
    'P' ∈ ((a ++ d) ++ b).data := by
  rw [show ((a ++ d) ++ b).data = (a.data ++ d.data) ++ b.data from rfl]
  simp [List.mem_append, h]

/-- C7 (confidence gating in the prompt): for every profile, a
confidence below `0.3` makes the generated prompt contain the simplified
step-guided-interface directive as a substring, a confidence above `0.7`
makes it contain the advanced customizable-interface directive, and in
the band `[0.3, 0.7]` the prompt contains neither directive. -/
theorem C7_confidence_gating (p : LearnerProfile) :
    (p.confidence_level < 3/10 →
       ∃ a b, profile_to_prompt p = a ++ simplifiedDirective ++ b) ∧
    (7/10 < p.confidence_level →
       ∃ a b, profile_to_prompt p = a ++ advancedDirective ++ b) ∧
    (3/10 ≤ p.confidence_level → p.confidence_level ≤ 7/10 →
       (¬ ∃ a b, profile_to_prompt p = a ++ simplifiedDirective ++ b) ∧
       (¬ ∃ a b, profile_to_prompt p = a ++ advancedDirective ++ b)) := by
  unfold profile_to_prompt
  rw [build_prompt_eq]
  refine ⟨?_, ?_, ?_⟩
  · intro h
    rw [if_pos h]
    exact ⟨_, _, rfl⟩
  · intro h
    rw [if_neg (not_lt.mpr (by linarith)), if_pos h]
    exact ⟨_, _, rfl⟩
  · intro h1 h2
    rw [if_neg (not_lt.mpr h1), if_neg (not_lt.mpr h2)]
    have hno : noUpperP (contextBase
        (_get_dominant_learning_style p.learning_style)
        (_get_personality_traits p.personality)
        (_get_cognitive_characteristics p.cognitive)
        (_get_behavioral_patterns p.behavioral)
        (_format_strengths p.strengths)
        (_format_difficulties p.difficulty_areas) ++ footerText) :=
      noUpperP_append (noUpperP_contextBase (noUpperP_dominant _)
        (noUpperP_personality _) (noUpperP_cognitive _) (noUpperP_behavioral _)
        (noUpperP_strengths _) (noUpperP_difficulties _)) (by decide)
    constructor <;> rintro ⟨a, b, heq⟩ <;> rw [heq] at hno
    · exact hno (mem_data_append_mid a simplifiedDirective b (by decide))
    · exact hno (mem_data_append_mid a advancedDirective b (by decide))

/-- A concrete low-confidence profile. -/
def profLow : LearnerProfile :=
  ⟨"low", ⟨1/4, 1/4, 1/4, 1/4⟩, ⟨1/2, 1/2, 1/2, 1/2⟩, ⟨1/2, 1/2, 1/2, 1/2, 1/2⟩,
   ⟨1/2, 1/2, 1/2, 1/2, 1/2⟩, [], [], [], 1/5, t0⟩

/-- A concrete high-confidence profile. -/
def profHigh : LearnerProfile :=
  ⟨"high", ⟨1/4, 1/4, 1/4, 1/4⟩, ⟨1/2, 1/2, 1/2, 1/2⟩, ⟨1/2, 1/2, 1/2, 1/2, 1/2⟩,
   ⟨1/2, 1/2, 1/2, 1/2, 1/2⟩, [], [], [], 4/5, t0⟩

/-- A concrete neutral-band-confidence profile. -/
def profMid : LearnerProfile :=
  ⟨"mid", ⟨1/4, 1/4, 1/4, 1/4⟩, ⟨1/2, 1/2, 1/2, 1/2⟩, ⟨1/2, 1/2, 1/2, 1/2, 1/2⟩,
   ⟨1/2, 1/2, 1/2, 1/2, 1/2⟩, [], [], [], 1/2, t0⟩

/-- Witness for C7 at confidence `0.2`, `0.8` and `0.5`: the low
profile's prompt contains the simplified directive, the high profile's
prompt the advanced one, and the mid profile's prompt neither. -/
theorem C7_confidence_gating_witness :
    (∃ a b, profile_to_prompt profLow = a ++ simplifiedDirective ++ b) ∧
    (∃ a b, profile_to_prompt profHigh = a ++ advancedDirective ++ b) ∧
    (¬ ∃ a b, profile_to_prompt profMid = a ++ simplifiedDirective ++ b) ∧
    (¬ ∃ a b, profile_to_prompt profMid = a ++ advancedDirective ++ b) := by
  refine ⟨(C7_confidence_gating profLow).1 (by norm_num [profLow]),
    (C7_confidence_gating profHigh).2.1 (by norm_num [profHigh]),
    ((C7_confidence_gating profMid).2.2 (by norm_num [profMid])
      (by norm_num [profMid])).1,
    ((C7_confidence_gating profMid).2.2 (by norm_num [profMid])
      (by norm_num [profMid])).2⟩
